import Mathlib

/-!
Shallow embedding of `internal/app/machined/pkg/controllers/time/sync.go`
(`SyncController.Run`), the time-sync reconciliation loop of the talos
repository.

Modelling decisions (each tied to a source line):

* The loop's mutable variables (lines 91–105) become the record `LoopState`:
  - `syncerRunning` models `syncer != nil` (at most one worker handle; the
    Go code holds a single `syncer` variable, so "at most one worker" is
    structural both in the source and here);
  - `syncChOpen` / `epochChOpen` model `syncCh != nil` / `epochCh != nil`
    (a worker signal can only be selected while its channel variable is
    non-nil, lines 124, 127);
  - `timeSynced`, `epoch` are the flag and counter (lines 100–101); Go's
    `epoch int` is a 64-bit two's-complement integer whose `epoch++`
    (line 128) wraps at `2^63`, so `epoch : Int` is always kept in
    `[-2^63, 2^63)` and the increment goes through `wrap64`;
  - `timer : Option Int` models the boot-timeout timer as the deadline of a
    pending fire on the channel the select reads (lines 103–104).  The Go
    code distinguishes the timer handle from its channel, but every path
    collapses to "armed with some deadline" or "cannot fire": the
    `syncTimeout == 0` branch stops the handle and nils the channel
    (lines 175–179, so no fire can be selected ⇒ `none`); the fire branch
    nils the handle, and the next re-arm then allocates a fresh timer
    whose channel replaces the stale one (lines 129–131, 185–188 ⇒ `none`
    then `some` fresh); `Reset` returning false on a stopped/expired
    handle likewise falls through to a fresh timer (line 185).
* Durations and instants are `Int` (nanosecond counts as in Go
  `time.Duration`); `sinceBoot` is `now - bootTime` (line 170).
* The five-way `select` (lines 120–132) becomes the `Event` inductive, one
  constructor per arm, consumed by `dispatch`.
* The per-iteration body (lines 134–239) becomes `body`; the store reads
  are `GetResult` values supplied in `CycleInput` (ok / not-found / other
  error, matching `state.IsNotFoundError`, lines 135–151), and the status
  write carries a `writeOk` flag (line 229–239: any `Modify` error is
  returned).
* `r.Modify` materialises the existing status resource and hands it to the
  closure; the closure at lines 230–234 overwrites the whole spec struct.
  `statusModify` takes that previous spec and mirrors the assignment.
* The deferred teardown (lines 107–117) becomes `teardown`: the worker is
  cancelled and awaited (`syncerRunning := false`) and the timer stopped
  (`timer := none`).
* `run` folds a list of (event, input) cycles, collecting the status
  writes and the exit kind (`exited` = `return nil` at line 122, `fatalErr`
  = a non-nil error return at lines 137, 149, 238).
-/

namespace TalosTimeSync

/-- `v1alpha1runtime.Mode`; the source only compares against
`ModeContainer` (line 157), other modes are behaviourally identical. -/
inductive Mode
  | container
  | metal
  | cloud
deriving DecidableEq, Repr

/-- Result of a `r.Get` on the resource store: the resource, a
not-found error (`state.IsNotFoundError`), or any other error. -/
inductive GetResult (α : Type)
  | ok (v : α)
  | notFound
  | err
deriving DecidableEq, Repr

/-- The resource, if the read succeeded. -/
def GetResult.toOption {α : Type} : GetResult α → Option α
  | .ok v => some v
  | .notFound => none
  | .err => none

/-- The slice of machine configuration the controller reads:
`Machine().Time().Disabled()` and `Machine().Time().BootTimeout()`
(lines 161, 166). -/
structure MachineConfig where
  disabled : Bool
  bootTimeout : Int
deriving DecidableEq, Repr

/-- `time.StatusSpec` (lines 230–234); `Epoch` is a Go `int`
(64-bit two's complement). -/
structure StatusSpec where
  epoch : Int
  synced : Bool
  syncDisabled : Bool
deriving DecidableEq, Repr

/-- The loop's mutable state (lines 91–105). -/
structure LoopState where
  /-- `syncer != nil`: a worker handle exists. -/
  syncerRunning : Bool
  /-- `syncCh != nil`: still listening for the worker's synced signal. -/
  syncChOpen : Bool
  /-- `epochCh != nil`: listening for the worker's epoch-change signal. -/
  epochChOpen : Bool
  /-- `timeSynced` flag (line 100). -/
  timeSynced : Bool
  /-- `epoch` counter (line 101): a Go `int`, i.e. a 64-bit
  two's-complement integer in `[-2^63, 2^63)`. -/
  epoch : Int
  /-- Armed boot-timeout timer: `some deadline` iff a fire is pending on
  the channel the select reads (lines 103–104). -/
  timer : Option Int
deriving DecidableEq, Repr

/-- State at loop entry: no worker, no channels, not synced, epoch 0,
no timer (lines 91–105, Go zero values). -/
def initialState : LoopState :=
  { syncerRunning := false, syncChOpen := false, epochChOpen := false
    timeSynced := false, epoch := 0, timer := none }

/-- One arm of the five-way `select` (lines 120–132). -/
inductive Event
  | ctxDone
  | eventCh
  | syncedSignal
  | epochSignal
  | timerFired
deriving DecidableEq, Repr

/-- An arm can only be selected when its channel can deliver: worker
signals need the channel variable non-nil, the timer needs an armed timer
whose deadline has passed. -/
def Event.enabled (s : LoopState) (now : Int) : Event → Bool
  | .ctxDone => true
  | .eventCh => true
  | .syncedSignal => s.syncChOpen
  | .epochSignal => s.epochChOpen
  | .timerFired =>
      match s.timer with
      | some d => decide (d ≤ now)
      | none => false

/-- Go `int` (64-bit two's complement) arithmetic: reduce into
`[-2^63, 2^63)` modulo `2^64`, the defined wraparound of signed overflow
in Go. -/
def wrap64 (x : Int) : Int := (x + 2 ^ 63) % 2 ^ 64 - 2 ^ 63

/-- Effect of consuming one select arm (lines 123–132): the synced signal
sets the flag and nils `syncCh` (one-shot, lines 124–126); an epoch signal
increments `epoch` (line 128, `epoch++` on a Go `int`, wrapping at
`2^63`); a timer fire sets the flag and drops the timer handle
(lines 129–131). -/
def dispatch (s : LoopState) : Event → LoopState
  | .ctxDone => s
  | .eventCh => s
  | .syncedSignal => { s with syncChOpen := false, timeSynced := true }
  | .epochSignal => { s with epoch := wrap64 (s.epoch + 1) }
  | .timerFired => { s with timeSynced := true, timer := none }

/-- External inputs of one iteration: the clock reading behind
`stdtime.Since` (line 170), the two store reads (lines 134, 146), the
previous stored status spec handed to the `Modify` closure (line 229),
and whether the `Modify` call succeeds. -/
structure CycleInput where
  now : Int
  timeServers : GetResult (List String)
  cfg : GetResult MachineConfig
  prevStatus : StatusSpec
  writeOk : Bool
deriving Repr

/-- The controller's fixed data: `V1Alpha1Mode` and `bootTime`
(lines 28, 31, 81–83). -/
structure SyncController where
  mode : Mode
  bootTime : Int
deriving DecidableEq, Repr

/-- `cfg != nil && cfg...Time().Disabled()` (line 161). -/
def cfgDisabled : Option MachineConfig → Bool
  | some c => c.disabled
  | none => false

/-- `syncTimeout`: the configured boot timeout, 0 when configuration is
absent (lines 153, 165–167, Go zero value). -/
def cfgBootTimeout : Option MachineConfig → Int
  | some c => c.bootTimeout
  | none => 0

/-- `syncDisabled` (lines 155–163): container mode forces it, and an
explicit configuration flag forces it. -/
def syncDisabledOf (mode : Mode) (cfg : Option MachineConfig) : Bool :=
  decide (mode = Mode.container) || cfgDisabled cfg

/-- The `if !timeSynced` timer-management block (lines 169–190):
`syncTimeout == 0` stops the timer and nils its channel; elapsed past the
timeout marks synced (the timer is left as is, lines 180–182); otherwise
the timer is (re)armed to fire when `bootTimeout` since boot has passed
(lines 183–188: `Reset` when possible, else a fresh timer — both leave an
armed timer at that deadline). -/
def timerStep (bootTime now syncTimeout : Int) (s : LoopState) : LoopState :=
  if s.timeSynced then s
  else if syncTimeout = 0 then
    { s with timer := none }
  else if now - bootTime > syncTimeout then
    { s with timeSynced := true }
  else
    { s with timer := some (now + (syncTimeout - (now - bootTime))) }

/-- Worker lifecycle decision (switch at lines 192–219). -/
inductive WorkerAction
  | stop
  | start
deriving DecidableEq, Repr

/-- Which switch case fires (lines 193, 202). -/
def workerAction (syncDisabled : Bool) (s : LoopState) : Option WorkerAction :=
  if syncDisabled && s.syncerRunning then some WorkerAction.stop
  else if !syncDisabled && !s.syncerRunning then some WorkerAction.start
  else none

/-- State effect of the switch: stop cancels the worker, awaits it, and
nils handle and channels (lines 195–201); start creates the worker, wires
its channels, and resets `timeSynced` (lines 204–218). -/
def applyWorkerAction (s : LoopState) : Option WorkerAction → LoopState
  | some WorkerAction.stop =>
      { s with syncerRunning := false, syncChOpen := false, epochChOpen := false }
  | some WorkerAction.start =>
      { s with syncerRunning := true, syncChOpen := true, epochChOpen := true
               timeSynced := false }
  | none => s

/-- The `Modify` closure (lines 230–234): the previous spec is replaced
wholesale by the just-computed triple. -/
def statusModify (_prev : StatusSpec) (epoch : Int) (synced syncDisabled : Bool) :
    StatusSpec :=
  { epoch := epoch, synced := synced, syncDisabled := syncDisabled }

/-- Deferred teardown (lines 107–117): cancel and await the worker if one
exists, stop the timer if one exists. -/
def teardown (s : LoopState) : LoopState :=
  { s with syncerRunning := false, timer := none }

/-- Outcome of one iteration after the select. -/
inductive CycleResult
  /-- `return nil` at line 122, after the deferred teardown. -/
  | exitOk (s : LoopState)
  /-- a non-nil error return (lines 137, 149, 238), after teardown. -/
  | fatal (s : LoopState)
  /-- `continue` at line 141: server list not found, skip the iteration. -/
  | skip (s : LoopState)
  /-- the iteration completed and wrote the status resource. -/
  | wrote (s : LoopState) (st : StatusSpec)
deriving DecidableEq, Repr

/-- Lines 153–227 as a state transformer: compute `syncDisabled` and
`syncTimeout`, manage the timer (lines 169–190), reconcile the worker
lifecycle (lines 192–219), and force `timeSynced` when disabled
(lines 225–227). -/
def cycleState (ctrl : SyncController) (s : LoopState) (inp : CycleInput) : LoopState :=
  let cfg := inp.cfg.toOption
  let syncDisabled := syncDisabledOf ctrl.mode cfg
  let syncTimeout := cfgBootTimeout cfg
  let s1 := timerStep ctrl.bootTime inp.now syncTimeout s
  let s2 := applyWorkerAction s1 (workerAction syncDisabled s1)
  if syncDisabled then { s2 with timeSynced := true } else s2

/-- Lines 134–239: the iteration body after the select. Server-list read:
not-found skips the iteration (line 141), any other error is fatal
(line 137). Config read: not-found means absent config (lines 146–151),
any other error is fatal (line 149). Then the state is transformed by
`cycleState` and the status written (lines 229–239). -/
def body (ctrl : SyncController) (s : LoopState) (inp : CycleInput) : CycleResult :=
  match inp.timeServers with
  | .err => .fatal (teardown s)
  | .notFound => .skip s
  | .ok _timeServers =>
    match inp.cfg with
    | .err => .fatal (teardown s)
    | _ =>
      let s3 := cycleState ctrl s inp
      let st := statusModify inp.prevStatus s3.epoch s3.timeSynced
        (syncDisabledOf ctrl.mode inp.cfg.toOption)
      if inp.writeOk then .wrote s3 st else .fatal (teardown s3)

/-- One full iteration: the select (line 120) then, unless cancellation
was selected (lines 121–122), the body. -/
def runCycle (ctrl : SyncController) (s : LoopState) (e : Event) (inp : CycleInput) :
    CycleResult :=
  match e with
  | .ctxDone => .exitOk (teardown s)
  | _ => body ctrl (dispatch s e) inp

/-- How a (finite prefix of a) run ended. -/
inductive Outcome
  | running
  | exited
  | fatalErr
deriving DecidableEq, Repr

/-- Result of running a sequence of iterations: final state, the status
specs written in order, and how the run ended. -/
structure RunResult where
  final : LoopState
  writes : List StatusSpec
  outcome : Outcome
deriving DecidableEq, Repr

/-- Fold `runCycle` over a list of (event, input) pairs, mirroring the
`for` loop at line 119: a skip continues, a write continues and is
recorded, cancellation and fatal errors end the run. -/
def run (ctrl : SyncController) (s : LoopState) :
    List (Event × CycleInput) → RunResult
  | [] => { final := s, writes := [], outcome := Outcome.running }
  | (e, inp) :: rest =>
    match runCycle ctrl s e inp with
    | .exitOk s' => { final := s', writes := [], outcome := Outcome.exited }
    | .fatal s' => { final := s', writes := [], outcome := Outcome.fatalErr }
    | .skip s' => run ctrl s' rest
    | .wrote s' st =>
      let r := run ctrl s' rest
      { final := r.final, writes := st :: r.writes, outcome := r.outcome }

/-- A trace is realisable when each event is enabled when consumed and no
event follows a terminated run. -/
def validTrace (ctrl : SyncController) (s : LoopState) :
    List (Event × CycleInput) → Bool
  | [] => true
  | (e, inp) :: rest =>
    Event.enabled s inp.now e &&
    match runCycle ctrl s e inp with
    | .exitOk _ => rest.isEmpty
    | .fatal _ => rest.isEmpty
    | .skip s' => validTrace ctrl s' rest
    | .wrote s' _ => validTrace ctrl s' rest

/-- Number of epoch-change signals in a trace. -/
def epochCount : List (Event × CycleInput) → Nat
  | [] => 0
  | (Event.epochSignal, _) :: rest => epochCount rest + 1
  | _ :: rest => epochCount rest

/-- The loop state carried by a cycle result (the value of the mutable
variables when the iteration ends, whether by continue, write, or
return). -/
def CycleResult.state : CycleResult → LoopState
  | .exitOk s => s
  | .fatal s => s
  | .skip s => s
  | .wrote s _ => s

/-! ### Field-preservation lemmas for the individual blocks -/

theorem dispatch_syncerRunning (s : LoopState) (e : Event) :
    (dispatch s e).syncerRunning = s.syncerRunning := by
  cases e <;> rfl

theorem dispatch_epoch (s : LoopState) (e : Event) :
    (dispatch s e).epoch =
      (if e = Event.epochSignal then wrap64 (s.epoch + 1) else s.epoch) := by
  cases e <;> simp [dispatch]

theorem wrap64_eq_of_mem (x : Int) (h1 : -(2 ^ 63) ≤ x) (h2 : x < 2 ^ 63) :
    wrap64 x = x := by
  unfold wrap64
  omega

theorem dispatch_timeSynced (s : LoopState) (e : Event) :
    (dispatch s e).timeSynced =
      (s.timeSynced || (e = Event.syncedSignal : Bool) || (e = Event.timerFired : Bool)) := by
  cases e <;> simp [dispatch]

theorem timerStep_epoch (bt now T : Int) (s : LoopState) :
    (timerStep bt now T s).epoch = s.epoch := by
  unfold timerStep
  split
  · rfl
  · split
    · rfl
    · split <;> rfl

theorem timerStep_syncerRunning (bt now T : Int) (s : LoopState) :
    (timerStep bt now T s).syncerRunning = s.syncerRunning := by
  unfold timerStep
  split
  · rfl
  · split
    · rfl
    · split <;> rfl

theorem timerStep_syncChOpen (bt now T : Int) (s : LoopState) :
    (timerStep bt now T s).syncChOpen = s.syncChOpen := by
  unfold timerStep
  split
  · rfl
  · split
    · rfl
    · split <;> rfl

theorem timerStep_epochChOpen (bt now T : Int) (s : LoopState) :
    (timerStep bt now T s).epochChOpen = s.epochChOpen := by
  unfold timerStep
  split
  · rfl
  · split
    · rfl
    · split <;> rfl

theorem timerStep_timeSynced (bt now T : Int) (s : LoopState) :
    (timerStep bt now T s).timeSynced =
      (s.timeSynced || (!(T = 0 : Bool) && decide (now - bt > T))) := by
  unfold timerStep
  by_cases h : s.timeSynced
  · simp [h]
  · simp only [Bool.not_eq_true] at h
    simp only [h, if_false, Bool.false_or]
    by_cases hT : T = 0
    · simp [hT]
    · by_cases hover : now - bt > T <;> simp [hT, hover]

theorem applyWorkerAction_epoch (s : LoopState) (a : Option WorkerAction) :
    (applyWorkerAction s a).epoch = s.epoch := by
  cases a with
  | none => rfl
  | some w => cases w <;> rfl

theorem applyWorkerAction_timer (s : LoopState) (a : Option WorkerAction) :
    (applyWorkerAction s a).timer = s.timer := by
  cases a with
  | none => rfl
  | some w => cases w <;> rfl

theorem applyWorkerAction_syncerRunning (s : LoopState) (d : Bool) :
    (applyWorkerAction s (workerAction d s)).syncerRunning = !d := by
  cases d <;> cases h : s.syncerRunning <;>
    simp [workerAction, applyWorkerAction, h]

theorem teardown_epoch (s : LoopState) : (teardown s).epoch = s.epoch := rfl

/-! ### Lemmas about the combined per-cycle state transformer -/

theorem cycleState_epoch (ctrl : SyncController) (s : LoopState) (inp : CycleInput) :
    (cycleState ctrl s inp).epoch = s.epoch := by
  simp only [cycleState]
  split <;> simp [applyWorkerAction_epoch, timerStep_epoch]

theorem cycleState_syncerRunning (ctrl : SyncController) (s : LoopState)
    (inp : CycleInput) :
    (cycleState ctrl s inp).syncerRunning =
      !(syncDisabledOf ctrl.mode inp.cfg.toOption) := by
  simp only [cycleState]
  split <;> simp_all [applyWorkerAction_syncerRunning]

theorem cycleState_timer (ctrl : SyncController) (s : LoopState) (inp : CycleInput) :
    (cycleState ctrl s inp).timer =
      (timerStep ctrl.bootTime inp.now (cfgBootTimeout inp.cfg.toOption) s).timer := by
  simp only [cycleState]
  split <;> simp [applyWorkerAction_timer]

theorem cycleState_timeSynced (ctrl : SyncController) (s : LoopState)
    (inp : CycleInput) :
    (cycleState ctrl s inp).timeSynced =
      (syncDisabledOf ctrl.mode inp.cfg.toOption ||
        (s.syncerRunning &&
          (s.timeSynced ||
            (!(cfgBootTimeout inp.cfg.toOption = 0 : Bool) &&
              decide (inp.now - ctrl.bootTime > cfgBootTimeout inp.cfg.toOption))))) := by
  simp only [cycleState]
  have h1 : (timerStep ctrl.bootTime inp.now (cfgBootTimeout inp.cfg.toOption)
      s).syncerRunning = s.syncerRunning := timerStep_syncerRunning _ _ _ _
  cases hd : syncDisabledOf ctrl.mode inp.cfg.toOption with
  | true => simp
  | false =>
    cases hr : s.syncerRunning <;>
      simp [workerAction, applyWorkerAction, h1, hr, timerStep_timeSynced]

/-! ### Inversion of a completed (written) cycle -/

theorem runCycle_wrote_inv (ctrl : SyncController) (s : LoopState) (e : Event)
    (inp : CycleInput) (s' : LoopState) (st : StatusSpec)
    (h : runCycle ctrl s e inp = CycleResult.wrote s' st) :
    cycleState ctrl (dispatch s e) inp = s' ∧
    statusModify inp.prevStatus (cycleState ctrl (dispatch s e) inp).epoch
      (cycleState ctrl (dispatch s e) inp).timeSynced
      (syncDisabledOf ctrl.mode inp.cfg.toOption) = st ∧
    inp.writeOk = true ∧ e ≠ Event.ctxDone := by
  cases e <;>
    cases hts : inp.timeServers <;>
    cases hcfg : inp.cfg <;>
    cases hwk : inp.writeOk <;>
    simp_all [runCycle, body] <;>
    (obtain ⟨h1, h2⟩ := h
     subst h1
     exact h2)

/-! ### Branch lemmas for the timer-management block -/

theorem timerStep_zero (bt now : Int) (s : LoopState) (h : s.timeSynced = false) :
    timerStep bt now 0 s = { s with timer := none } := by
  simp [timerStep, h]

theorem timerStep_over (bt now T : Int) (s : LoopState) (h : s.timeSynced = false)
    (hT : T ≠ 0) (hover : now - bt > T) :
    timerStep bt now T s = { s with timeSynced := true } := by
  simp [timerStep, h, hT, hover]

theorem timerStep_arm (bt now T : Int) (s : LoopState) (h : s.timeSynced = false)
    (hT : T ≠ 0) (hover : ¬(now - bt > T)) :
    timerStep bt now T s = { s with timer := some (bt + T) } := by
  have harr : now + (T - (now - bt)) = bt + T := by ring
  simp [timerStep, h, hT, hover, harr]

/-! ### Claim theorems -/

/-- C1: every fully processed reconciliation cycle (one that reaches the
status write, i.e. produces a `wrote` result) publishes exactly the
triple {epoch, synced, syncDisabled} computed in that cycle: each field
comes from the just-computed loop state, and the `Modify` closure
replaces the whole previous spec, so no field can retain a stale prior
value (the written spec is the same whatever was stored before). -/
theorem status_write_is_total (ctrl : SyncController) (s : LoopState) (e : Event)
    (inp : CycleInput) (s' : LoopState) (st : StatusSpec)
    (h : runCycle ctrl s e inp = CycleResult.wrote s' st) :
    st.epoch = s'.epoch ∧ st.synced = s'.timeSynced ∧
    st.syncDisabled = syncDisabledOf ctrl.mode inp.cfg.toOption ∧
    ∀ prev : StatusSpec,
      statusModify prev s'.epoch s'.timeSynced
        (syncDisabledOf ctrl.mode inp.cfg.toOption) = st := by
  obtain ⟨h1, h2, -, -⟩ := runCycle_wrote_inv ctrl s e inp s' st h
  subst h1
  exact ⟨by rw [← h2]; rfl, by rw [← h2]; rfl, by rw [← h2]; rfl, fun prev => h2⟩

/-- Witness for C1: a concrete cycle from the initial state, with absent
configuration, that starts the worker and writes `{0, false, false}`. -/
theorem status_write_is_total_witness :
    runCycle ⟨Mode.metal, 0⟩ initialState Event.eventCh
        ⟨1, GetResult.ok [], GetResult.notFound, ⟨7, true, true⟩, true⟩ =
      CycleResult.wrote ⟨true, true, true, false, 0, none⟩ ⟨0, false, false⟩ ∧
    ((0 : Int) = 0 ∧ (false : Bool) = false ∧ (false : Bool) = false ∧
      ∀ prev : StatusSpec, statusModify prev 0 false false = ⟨0, false, false⟩) :=
  ⟨by decide,
   status_write_is_total ⟨Mode.metal, 0⟩ initialState Event.eventCh
     ⟨1, GetResult.ok [], GetResult.notFound, ⟨7, true, true⟩, true⟩
     ⟨true, true, true, false, 0, none⟩ ⟨0, false, false⟩ (by decide)⟩

/-- C2 counterexample: the claim states that when elapsed time already
exceeds `bootTimeout` the timer is disarmed.  At this concrete cycle
(boot at 0, now 10, configured timeout 5, a timer armed for deadline
100, not yet synced, worker running), the cycle marks synced=true but
leaves the timer armed at deadline 100 — it is not disarmed. -/
theorem timer_not_disarmed_counterexample :
    runCycle ⟨Mode.metal, 0⟩ ⟨true, true, true, false, 0, some 100⟩ Event.eventCh
        ⟨10, GetResult.ok [], GetResult.ok ⟨false, 5⟩, ⟨0, false, false⟩, true⟩ =
      CycleResult.wrote ⟨true, true, true, true, 0, some 100⟩ ⟨0, true, false⟩ ∧
    (10 : Int) - 0 > 5 ∧
    ¬((5 : Int) = 0) ∧
    (⟨true, true, true, false, 0, some 100⟩ : LoopState).timeSynced = false ∧
    (⟨true, true, true, true, 0, some 100⟩ : LoopState).timer ≠ none := by
  decide

/-- C2 (amended): on every cycle that reaches the timer-management block
with the synced flag not yet set (and, to isolate the block, sync enabled
and the worker already running): if the effective `bootTimeout` is 0 the
timer is disarmed and synced is left unchanged; if elapsed time since
boot already exceeds `bootTimeout`, synced is set to true immediately and
the timer is left exactly as it was (NOT disarmed); otherwise the timer
is (re)armed, from the current configuration, to fire when `bootTimeout`
has elapsed since boot (deadline `bootTime + bootTimeout`), replacing any
previously armed deadline. -/
theorem timer_management_amended (ctrl : SyncController) (s : LoopState) (e : Event)
    (inp : CycleInput) (s' : LoopState) (st : StatusSpec)
    (h : runCycle ctrl s e inp = CycleResult.wrote s' st)
    (hsync : (dispatch s e).timeSynced = false)
    (hd : syncDisabledOf ctrl.mode inp.cfg.toOption = false)
    (hr : s.syncerRunning = true) :
    (cfgBootTimeout inp.cfg.toOption = 0 →
      s'.timer = none ∧ s'.timeSynced = false) ∧
    (cfgBootTimeout inp.cfg.toOption ≠ 0 →
      inp.now - ctrl.bootTime > cfgBootTimeout inp.cfg.toOption →
      s'.timeSynced = true ∧ s'.timer = (dispatch s e).timer) ∧
    (cfgBootTimeout inp.cfg.toOption ≠ 0 →
      ¬(inp.now - ctrl.bootTime > cfgBootTimeout inp.cfg.toOption) →
      s'.timer = some (ctrl.bootTime + cfgBootTimeout inp.cfg.toOption) ∧
      s'.timeSynced = false) := by
  obtain ⟨h1, -, -, -⟩ := runCycle_wrote_inv ctrl s e inp s' st h
  subst h1
  have htm := cycleState_timer ctrl (dispatch s e) inp
  have hts := cycleState_timeSynced ctrl (dispatch s e) inp
  have hds : (dispatch s e).syncerRunning = true := by
    rw [dispatch_syncerRunning]; exact hr
  refine ⟨?_, ?_, ?_⟩
  · intro hT
    constructor
    · rw [htm, hT, timerStep_zero _ _ _ hsync]
    · rw [hts]
      simp [hd, hds, hsync, hT]
  · intro hT hover
    constructor
    · rw [hts]
      simp [hd, hds, hsync, hT, hover]
    · rw [htm, timerStep_over _ _ _ _ hsync hT hover]
  · intro hT hover
    constructor
    · rw [htm, timerStep_arm _ _ _ _ hsync hT hover]
    · rw [hts]
      simp [hd, hds, hsync, hover]

/-- Witness for the amended C2: the counterexample cycle, through the
amended theorem (the elapsed-exceeds branch keeps the armed timer). -/
theorem timer_management_amended_witness :
    (cfgBootTimeout (GetResult.ok (⟨false, 5⟩ : MachineConfig)).toOption ≠ 0 ∧
      (10 : Int) - 0 > cfgBootTimeout (GetResult.ok (⟨false, 5⟩ : MachineConfig)).toOption) ∧
    ((⟨true, true, true, true, 0, some 100⟩ : LoopState).timeSynced = true ∧
      (⟨true, true, true, true, 0, some 100⟩ : LoopState).timer =
        (dispatch ⟨true, true, true, false, 0, some 100⟩ Event.eventCh).timer) :=
  ⟨⟨by decide, by decide⟩,
   (timer_management_amended ⟨Mode.metal, 0⟩ ⟨true, true, true, false, 0, some 100⟩
      Event.eventCh ⟨10, GetResult.ok [], GetResult.ok ⟨false, 5⟩, ⟨0, false, false⟩, true⟩
      ⟨true, true, true, true, 0, some 100⟩ ⟨0, true, false⟩
      (by decide) (by decide) (by decide) (by decide)).2.1 (by decide) (by decide)⟩

/-- C3: after every fully processed cycle the worker handle exists iff
sync is enabled; the start case of the lifecycle switch fires exactly
when no worker runs and sync is enabled, and the stop case (cancel and
await) exactly when a worker runs and sync is disabled — so a worker is
never started over a live one nor stopped twice (the model's single
handle also makes "at most one live worker" structural, as does the
single `syncer` variable in the source). -/
theorem worker_lifecycle_iff_enabled (ctrl : SyncController) (s : LoopState)
    (e : Event) (inp : CycleInput) (s' : LoopState) (st : StatusSpec)
    (h : runCycle ctrl s e inp = CycleResult.wrote s' st) :
    (s'.syncerRunning = !(syncDisabledOf ctrl.mode inp.cfg.toOption)) ∧
    (workerAction (syncDisabledOf ctrl.mode inp.cfg.toOption)
        (timerStep ctrl.bootTime inp.now (cfgBootTimeout inp.cfg.toOption)
          (dispatch s e)) = some WorkerAction.start ↔
      (s.syncerRunning = false ∧
        syncDisabledOf ctrl.mode inp.cfg.toOption = false)) ∧
    (workerAction (syncDisabledOf ctrl.mode inp.cfg.toOption)
        (timerStep ctrl.bootTime inp.now (cfgBootTimeout inp.cfg.toOption)
          (dispatch s e)) = some WorkerAction.stop ↔
      (s.syncerRunning = true ∧
        syncDisabledOf ctrl.mode inp.cfg.toOption = true)) := by
  obtain ⟨h1, -, -, -⟩ := runCycle_wrote_inv ctrl s e inp s' st h
  subst h1
  have hsr : (timerStep ctrl.bootTime inp.now (cfgBootTimeout inp.cfg.toOption)
      (dispatch s e)).syncerRunning = s.syncerRunning := by
    rw [timerStep_syncerRunning, dispatch_syncerRunning]
  refine ⟨cycleState_syncerRunning _ _ _, ?_, ?_⟩ <;>
    cases hd : syncDisabledOf ctrl.mode inp.cfg.toOption <;>
      cases hr : s.syncerRunning <;>
        simp [workerAction, hsr, hd, hr]

/-- Witness for C3: a concrete enabling cycle from the initial state. -/
theorem worker_lifecycle_iff_enabled_witness :
    ((⟨true, true, true, false, 0, none⟩ : LoopState).syncerRunning =
      !(syncDisabledOf Mode.metal (GetResult.notFound : GetResult MachineConfig).toOption)) ∧
    (workerAction (syncDisabledOf Mode.metal (GetResult.notFound : GetResult MachineConfig).toOption)
        (timerStep 0 1 (cfgBootTimeout (GetResult.notFound : GetResult MachineConfig).toOption)
          (dispatch initialState Event.eventCh)) = some WorkerAction.start ↔
      (initialState.syncerRunning = false ∧
        syncDisabledOf Mode.metal (GetResult.notFound : GetResult MachineConfig).toOption = false)) ∧
    (workerAction (syncDisabledOf Mode.metal (GetResult.notFound : GetResult MachineConfig).toOption)
        (timerStep 0 1 (cfgBootTimeout (GetResult.notFound : GetResult MachineConfig).toOption)
          (dispatch initialState Event.eventCh)) = some WorkerAction.stop ↔
      (initialState.syncerRunning = true ∧
        syncDisabledOf Mode.metal (GetResult.notFound : GetResult MachineConfig).toOption = true)) :=
  worker_lifecycle_iff_enabled ⟨Mode.metal, 0⟩ initialState Event.eventCh
    ⟨1, GetResult.ok [], GetResult.notFound, ⟨7, true, true⟩, true⟩
    ⟨true, true, true, false, 0, none⟩ ⟨0, false, false⟩ (by decide)

/-- C4: the synced flag becomes true only on the worker's synced signal,
on the timer firing, when the in-cycle deadline check finds elapsed time
past the boot timeout, or when sync is disabled; a true→false transition
happens only when a worker is freshly started, a fresh start always
leaves it false at the write, and within one worker lifetime (no fresh
start) it is monotone. -/
theorem synced_flag_transitions (ctrl : SyncController) (s : LoopState) (e : Event)
    (inp : CycleInput) (s' : LoopState) (st : StatusSpec)
    (h : runCycle ctrl s e inp = CycleResult.wrote s' st) :
    (s.timeSynced = false → s'.timeSynced = true →
      (e = Event.syncedSignal ∨ e = Event.timerFired ∨
        (cfgBootTimeout inp.cfg.toOption ≠ 0 ∧
          inp.now - ctrl.bootTime > cfgBootTimeout inp.cfg.toOption) ∨
        syncDisabledOf ctrl.mode inp.cfg.toOption = true)) ∧
    (s.timeSynced = true → s'.timeSynced = false →
      (s.syncerRunning = false ∧ s'.syncerRunning = true)) ∧
    ((s.syncerRunning = false ∧ s'.syncerRunning = true) → s'.timeSynced = false) ∧
    (s.timeSynced = true → ¬(s.syncerRunning = false ∧ s'.syncerRunning = true) →
      s'.timeSynced = true) := by
  obtain ⟨h1, -, -, -⟩ := runCycle_wrote_inv ctrl s e inp s' st h
  subst h1
  have hts := cycleState_timeSynced ctrl (dispatch s e) inp
  have hsr := cycleState_syncerRunning ctrl (dispatch s e) inp
  cases e <;>
    cases hd : syncDisabledOf ctrl.mode inp.cfg.toOption <;>
    cases hr : s.syncerRunning <;>
    cases ht : s.timeSynced <;>
    simp_all [dispatch]

/-- Witness for C4: a cycle where the worker's synced signal arrives. -/
theorem synced_flag_transitions_witness :
    ((⟨true, true, true, false, 3, none⟩ : LoopState).timeSynced = false →
      (⟨true, false, true, true, 3, none⟩ : LoopState).timeSynced = true →
      (Event.syncedSignal = Event.syncedSignal ∨ Event.syncedSignal = Event.timerFired ∨
        (cfgBootTimeout (GetResult.notFound : GetResult MachineConfig).toOption ≠ 0 ∧
          (2 : Int) - 0 > cfgBootTimeout (GetResult.notFound : GetResult MachineConfig).toOption) ∨
        syncDisabledOf Mode.metal (GetResult.notFound : GetResult MachineConfig).toOption = true)) ∧
    ((⟨true, true, true, false, 3, none⟩ : LoopState).timeSynced = true →
      (⟨true, false, true, true, 3, none⟩ : LoopState).timeSynced = false →
      ((⟨true, true, true, false, 3, none⟩ : LoopState).syncerRunning = false ∧
        (⟨true, false, true, true, 3, none⟩ : LoopState).syncerRunning = true)) ∧
    (((⟨true, true, true, false, 3, none⟩ : LoopState).syncerRunning = false ∧
        (⟨true, false, true, true, 3, none⟩ : LoopState).syncerRunning = true) →
      (⟨true, false, true, true, 3, none⟩ : LoopState).timeSynced = false) ∧
    ((⟨true, true, true, false, 3, none⟩ : LoopState).timeSynced = true →
      ¬((⟨true, true, true, false, 3, none⟩ : LoopState).syncerRunning = false ∧
          (⟨true, false, true, true, 3, none⟩ : LoopState).syncerRunning = true) →
      (⟨true, false, true, true, 3, none⟩ : LoopState).timeSynced = true) :=
  synced_flag_transitions ⟨Mode.metal, 0⟩ ⟨true, true, true, false, 3, none⟩
    Event.syncedSignal ⟨2, GetResult.ok [], GetResult.notFound, ⟨0, false, false⟩, true⟩
    ⟨true, false, true, true, 3, none⟩ ⟨3, true, false⟩ (by decide)

/-! ### Per-cycle and per-run epoch accounting -/

theorem runCycle_state_epoch (ctrl : SyncController) (s : LoopState) (e : Event)
    (inp : CycleInput) :
    ((runCycle ctrl s e inp).state).epoch =
      (if e = Event.epochSignal then wrap64 (s.epoch + 1) else s.epoch) := by
  cases e <;>
    cases hts : inp.timeServers <;>
    cases hcfg : inp.cfg <;>
    cases hwk : inp.writeOk <;>
    simp [runCycle, body, CycleResult.state, teardown, dispatch, cycleState_epoch,
      hts, hcfg, hwk]

theorem epochCount_cons (e : Event) (inp : CycleInput)
    (rest : List (Event × CycleInput)) :
    epochCount ((e, inp) :: rest) =
      (if e = Event.epochSignal then 1 else 0) + epochCount rest := by
  cases e <;> simp [epochCount, Nat.add_comm]

theorem run_final_epoch (ctrl : SyncController) (s : LoopState)
    (tr : List (Event × CycleInput))
    (hlo : -(2 ^ 63) ≤ s.epoch)
    (hhi : s.epoch + (epochCount tr : Int) < 2 ^ 63)
    (ho : (run ctrl s tr).outcome = Outcome.running) :
    (run ctrl s tr).final.epoch = s.epoch + (epochCount tr : Int) := by
  induction tr generalizing s with
  | nil => simp [run, epochCount]
  | cons p rest ih =>
    obtain ⟨e, inp⟩ := p
    have hst := runCycle_state_epoch ctrl s e inp
    have hc0 : (0 : Int) ≤ (epochCount rest : Int) := Int.natCast_nonneg _
    by_cases hE : e = Event.epochSignal
    · subst hE
      have hcnt : (epochCount ((Event.epochSignal, inp) :: rest) : Int) =
          1 + (epochCount rest : Int) := by
        rw [epochCount_cons]; simp
      rw [hcnt] at hhi ⊢
      have hw : wrap64 (s.epoch + 1) = s.epoch + 1 :=
        wrap64_eq_of_mem _ (by omega) (by omega)
      rw [if_pos rfl, hw] at hst
      cases hres : runCycle ctrl s Event.epochSignal inp with
      | exitOk s1 => simp [run, hres] at ho
      | fatal s1 => simp [run, hres] at ho
      | skip s1 =>
        rw [hres] at hst; simp only [CycleResult.state] at hst
        have ho' : (run ctrl s1 rest).outcome = Outcome.running := by
          simpa [run, hres] using ho
        have hih := ih s1 (by omega) (by omega) ho'
        simp only [run, hres]
        omega
      | wrote s1 st =>
        rw [hres] at hst; simp only [CycleResult.state] at hst
        have ho' : (run ctrl s1 rest).outcome = Outcome.running := by
          simpa [run, hres] using ho
        have hih := ih s1 (by omega) (by omega) ho'
        simp only [run, hres]
        omega
    · have hcnt : (epochCount ((e, inp) :: rest) : Int) =
          (epochCount rest : Int) := by
        rw [epochCount_cons, if_neg hE]; simp
      rw [hcnt] at hhi ⊢
      rw [if_neg hE] at hst
      cases hres : runCycle ctrl s e inp with
      | exitOk s1 => simp [run, hres] at ho
      | fatal s1 => simp [run, hres] at ho
      | skip s1 =>
        rw [hres] at hst; simp only [CycleResult.state] at hst
        have ho' : (run ctrl s1 rest).outcome = Outcome.running := by
          simpa [run, hres] using ho
        have hih := ih s1 (by omega) (by omega) ho'
        simp only [run, hres]
        omega
      | wrote s1 st =>
        rw [hres] at hst; simp only [CycleResult.state] at hst
        have ho' : (run ctrl s1 rest).outcome = Outcome.running := by
          simpa [run, hres] using ho
        have hih := ih s1 (by omega) (by omega) ho'
        simp only [run, hres]
        omega

theorem run_final_epoch_ge (ctrl : SyncController) (s : LoopState)
    (tr : List (Event × CycleInput))
    (hlo : -(2 ^ 63) ≤ s.epoch)
    (hhi : s.epoch + (epochCount tr : Int) < 2 ^ 63) :
    s.epoch ≤ (run ctrl s tr).final.epoch := by
  induction tr generalizing s with
  | nil => simp [run]
  | cons p rest ih =>
    obtain ⟨e, inp⟩ := p
    have hst := runCycle_state_epoch ctrl s e inp
    have hc0 : (0 : Int) ≤ (epochCount rest : Int) := Int.natCast_nonneg _
    by_cases hE : e = Event.epochSignal
    · subst hE
      have hcnt : (epochCount ((Event.epochSignal, inp) :: rest) : Int) =
          1 + (epochCount rest : Int) := by
        rw [epochCount_cons]; simp
      rw [hcnt] at hhi
      have hw : wrap64 (s.epoch + 1) = s.epoch + 1 :=
        wrap64_eq_of_mem _ (by omega) (by omega)
      rw [if_pos rfl, hw] at hst
      cases hres : runCycle ctrl s Event.epochSignal inp with
      | exitOk s1 =>
        rw [hres] at hst; simp only [CycleResult.state] at hst
        simp only [run, hres]
        omega
      | fatal s1 =>
        rw [hres] at hst; simp only [CycleResult.state] at hst
        simp only [run, hres]
        omega
      | skip s1 =>
        rw [hres] at hst; simp only [CycleResult.state] at hst
        have hih := ih s1 (by omega) (by omega)
        simp only [run, hres]
        omega
      | wrote s1 st =>
        rw [hres] at hst; simp only [CycleResult.state] at hst
        have hih := ih s1 (by omega) (by omega)
        simp only [run, hres]
        omega
    · have hcnt : (epochCount ((e, inp) :: rest) : Int) =
          (epochCount rest : Int) := by
        rw [epochCount_cons, if_neg hE]; simp
      rw [hcnt] at hhi
      rw [if_neg hE] at hst
      cases hres : runCycle ctrl s e inp with
      | exitOk s1 =>
        rw [hres] at hst; simp only [CycleResult.state] at hst
        simp only [run, hres]
        omega
      | fatal s1 =>
        rw [hres] at hst; simp only [CycleResult.state] at hst
        simp only [run, hres]
        omega
      | skip s1 =>
        rw [hres] at hst; simp only [CycleResult.state] at hst
        have hih := ih s1 (by omega) (by omega)
        simp only [run, hres]
        omega
      | wrote s1 st =>
        rw [hres] at hst; simp only [CycleResult.state] at hst
        have hih := ih s1 (by omega) (by omega)
        simp only [run, hres]
        omega

/-- C5 counterexample: the epoch counter is a Go `int` (`epoch++` at
line 128 wraps at `2^63` under Go's defined two's-complement overflow),
so the claim's "never decreases" and "exceeds its prior value by exactly
N" fail at the wrap point: with the counter at `2^63 - 1`, one
epoch-changed signal publishes epoch `-(2^63)`, which is smaller than
the prior value and not the prior value plus one. -/
theorem epoch_wraps_counterexample :
    runCycle ⟨Mode.metal, 0⟩ ⟨true, true, true, true, 2 ^ 63 - 1, none⟩
        Event.epochSignal
        ⟨1, GetResult.ok [], GetResult.notFound, ⟨0, true, false⟩, true⟩ =
      CycleResult.wrote ⟨true, true, true, true, -(2 ^ 63), none⟩
        ⟨-(2 ^ 63), true, false⟩ ∧
    (-(2 ^ 63) : Int) < 2 ^ 63 - 1 ∧
    ¬((-(2 ^ 63) : Int) = (2 ^ 63 - 1) + 1) := by
  decide

/-- C5 (amended): the epoch counter starts at 0 and every cycle changes
it by exactly one wrapping 64-bit increment per epoch-changed signal
consumed (and by nothing else — worker stops, starts, teardown and
errors leave it untouched); as long as the counter does not cross
`2^63 - 1` (i.e. fewer than `2^63 - initial epoch` signals in total), it
never decreases over any run and over any fully consumed trace the final
epoch exceeds the initial value by exactly the number of epoch-changed
signals in the trace. -/
theorem epoch_monotone_count :
    initialState.epoch = 0 ∧
    (∀ (ctrl : SyncController) (s : LoopState) (e : Event) (inp : CycleInput),
      ((runCycle ctrl s e inp).state).epoch =
        (if e = Event.epochSignal then wrap64 (s.epoch + 1) else s.epoch)) ∧
    (∀ (ctrl : SyncController) (s : LoopState) (tr : List (Event × CycleInput)),
      -(2 ^ 63) ≤ s.epoch → s.epoch + (epochCount tr : Int) < 2 ^ 63 →
      (run ctrl s tr).outcome = Outcome.running →
      (run ctrl s tr).final.epoch = s.epoch + (epochCount tr : Int)) ∧
    (∀ (ctrl : SyncController) (s : LoopState) (tr : List (Event × CycleInput)),
      -(2 ^ 63) ≤ s.epoch → s.epoch + (epochCount tr : Int) < 2 ^ 63 →
      s.epoch ≤ (run ctrl s tr).final.epoch) :=
  ⟨rfl, runCycle_state_epoch, run_final_epoch, run_final_epoch_ge⟩

/-- Witness for C5: two epoch signals and a worker restart in between
leave the final epoch exactly two above the initial value. -/
theorem epoch_monotone_count_witness :
    (-(2 ^ 63) ≤ (⟨true, true, true, false, 0, none⟩ : LoopState).epoch ∧
     (⟨true, true, true, false, 0, none⟩ : LoopState).epoch +
        (epochCount
          [(Event.epochSignal, ⟨1, GetResult.ok [], GetResult.notFound, ⟨0, false, false⟩, true⟩),
           (Event.eventCh, ⟨2, GetResult.ok [], GetResult.ok ⟨true, 0⟩, ⟨1, false, false⟩, true⟩),
           (Event.eventCh, ⟨3, GetResult.ok [], GetResult.notFound, ⟨1, true, true⟩, true⟩),
           (Event.epochSignal, ⟨4, GetResult.ok [], GetResult.notFound, ⟨1, false, false⟩, true⟩)] : Int) <
       2 ^ 63 ∧
     (run ⟨Mode.metal, 0⟩ ⟨true, true, true, false, 0, none⟩
        [(Event.epochSignal, ⟨1, GetResult.ok [], GetResult.notFound, ⟨0, false, false⟩, true⟩),
         (Event.eventCh, ⟨2, GetResult.ok [], GetResult.ok ⟨true, 0⟩, ⟨1, false, false⟩, true⟩),
         (Event.eventCh, ⟨3, GetResult.ok [], GetResult.notFound, ⟨1, true, true⟩, true⟩),
         (Event.epochSignal, ⟨4, GetResult.ok [], GetResult.notFound, ⟨1, false, false⟩, true⟩)]).outcome =
       Outcome.running) ∧
    (run ⟨Mode.metal, 0⟩ ⟨true, true, true, false, 0, none⟩
        [(Event.epochSignal, ⟨1, GetResult.ok [], GetResult.notFound, ⟨0, false, false⟩, true⟩),
         (Event.eventCh, ⟨2, GetResult.ok [], GetResult.ok ⟨true, 0⟩, ⟨1, false, false⟩, true⟩),
         (Event.eventCh, ⟨3, GetResult.ok [], GetResult.notFound, ⟨1, true, true⟩, true⟩),
         (Event.epochSignal, ⟨4, GetResult.ok [], GetResult.notFound, ⟨1, false, false⟩, true⟩)]).final.epoch =
      (⟨true, true, true, false, 0, none⟩ : LoopState).epoch +
        (epochCount
          [(Event.epochSignal, ⟨1, GetResult.ok [], GetResult.notFound, ⟨0, false, false⟩, true⟩),
           (Event.eventCh, ⟨2, GetResult.ok [], GetResult.ok ⟨true, 0⟩, ⟨1, false, false⟩, true⟩),
           (Event.eventCh, ⟨3, GetResult.ok [], GetResult.notFound, ⟨1, true, true⟩, true⟩),
           (Event.epochSignal, ⟨4, GetResult.ok [], GetResult.notFound, ⟨1, false, false⟩, true⟩)] : Int) :=
  ⟨⟨by decide, by decide, by decide⟩,
   epoch_monotone_count.2.2.1 ⟨Mode.metal, 0⟩ ⟨true, true, true, false, 0, none⟩
     [(Event.epochSignal, ⟨1, GetResult.ok [], GetResult.notFound, ⟨0, false, false⟩, true⟩),
      (Event.eventCh, ⟨2, GetResult.ok [], GetResult.ok ⟨true, 0⟩, ⟨1, false, false⟩, true⟩),
      (Event.eventCh, ⟨3, GetResult.ok [], GetResult.notFound, ⟨1, true, true⟩, true⟩),
      (Event.epochSignal, ⟨4, GetResult.ok [], GetResult.notFound, ⟨1, false, false⟩, true⟩)]
     (by decide) (by decide) (by decide)⟩

/-- C6: a cycle whose server-list read returns not-found only applies the
consumed event and skips everything else: the result is a `skip` (no
status write, no fatal error), the worker state is untouched, and the run
simply continues with the next iterations as if from the post-event
state. -/
theorem not_found_skips_cycle (ctrl : SyncController) (s : LoopState) (e : Event)
    (inp : CycleInput) (rest : List (Event × CycleInput))
    (he : e ≠ Event.ctxDone) (h : inp.timeServers = GetResult.notFound) :
    runCycle ctrl s e inp = CycleResult.skip (dispatch s e) ∧
    (dispatch s e).syncerRunning = s.syncerRunning ∧
    run ctrl s ((e, inp) :: rest) = run ctrl (dispatch s e) rest := by
  have h1 : runCycle ctrl s e inp = CycleResult.skip (dispatch s e) := by
    cases e <;> simp_all [runCycle, body]
  exact ⟨h1, dispatch_syncerRunning s e, by simp [run, h1]⟩

/-- Witness for C6: a not-found cycle with a pending epoch signal. -/
theorem not_found_skips_cycle_witness :
    runCycle ⟨Mode.container, 0⟩ ⟨true, true, true, true, 2, none⟩ Event.epochSignal
        ⟨5, GetResult.notFound, GetResult.notFound, ⟨2, true, true⟩, true⟩ =
      CycleResult.skip
        (dispatch ⟨true, true, true, true, 2, none⟩ Event.epochSignal) ∧
    (dispatch ⟨true, true, true, true, 2, none⟩ Event.epochSignal).syncerRunning =
      (⟨true, true, true, true, 2, none⟩ : LoopState).syncerRunning ∧
    run ⟨Mode.container, 0⟩ ⟨true, true, true, true, 2, none⟩
        [(Event.epochSignal,
          ⟨5, GetResult.notFound, GetResult.notFound, ⟨2, true, true⟩, true⟩)] =
      run ⟨Mode.container, 0⟩
        (dispatch ⟨true, true, true, true, 2, none⟩ Event.epochSignal) [] :=
  not_found_skips_cycle ⟨Mode.container, 0⟩ ⟨true, true, true, true, 2, none⟩
    Event.epochSignal ⟨5, GetResult.notFound, GetResult.notFound, ⟨2, true, true⟩, true⟩
    [] (by decide) rfl

/-- C7: a non-not-found error on either watched-input read, and any error
on the status write, ends the run with a fatal (non-nil) error after the
deferred teardown; once a cycle is fatal the run records no further
status writes — the last successful write stands. -/
theorem store_errors_fatal (ctrl : SyncController) (s : LoopState) (e : Event)
    (inp : CycleInput) (rest : List (Event × CycleInput))
    (he : e ≠ Event.ctxDone) :
    (inp.timeServers = GetResult.err →
      runCycle ctrl s e inp = CycleResult.fatal (teardown (dispatch s e))) ∧
    (∀ l, inp.timeServers = GetResult.ok l → inp.cfg = GetResult.err →
      runCycle ctrl s e inp = CycleResult.fatal (teardown (dispatch s e))) ∧
    (∀ l, inp.timeServers = GetResult.ok l → inp.cfg ≠ GetResult.err →
      inp.writeOk = false →
      runCycle ctrl s e inp =
        CycleResult.fatal (teardown (cycleState ctrl (dispatch s e) inp))) ∧
    (∀ s1, runCycle ctrl s e inp = CycleResult.fatal s1 →
      run ctrl s ((e, inp) :: rest) =
        { final := s1, writes := [], outcome := Outcome.fatalErr }) := by
  refine ⟨?_, ?_, ?_, ?_⟩
  · intro hts
    cases e <;> simp_all [runCycle, body]
  · intro l hts hcfg
    cases e <;> simp_all [runCycle, body]
  · intro l hts hcfg hwk
    cases e <;> cases hc : inp.cfg <;> simp_all [runCycle, body]
  · intro s1 hres
    simp [run, hres]

/-- Witness for C7: a failed server-list read is fatal. -/
theorem store_errors_fatal_witness :
    runCycle ⟨Mode.metal, 0⟩ initialState Event.eventCh
        ⟨0, GetResult.err, GetResult.notFound, ⟨0, false, false⟩, true⟩ =
      CycleResult.fatal (teardown (dispatch initialState Event.eventCh)) :=
  (store_errors_fatal ⟨Mode.metal, 0⟩ initialState Event.eventCh
      ⟨0, GetResult.err, GetResult.notFound, ⟨0, false, false⟩, true⟩ []
      (by decide)).1 rfl

/-- C8: `syncDisabled` is true iff the controller runs in container mode
or the configuration explicitly disables time sync (false when
configuration is absent and the mode is not container); whenever it is
true, the status written that cycle — from any loop state whatsoever —
reports synced=true and syncDisabled=true. -/
theorem sync_disabled_semantics (ctrl : SyncController) (s : LoopState) (e : Event)
    (inp : CycleInput) (s' : LoopState) (st : StatusSpec)
    (h : runCycle ctrl s e inp = CycleResult.wrote s' st) :
    st.syncDisabled = syncDisabledOf ctrl.mode inp.cfg.toOption ∧
    (syncDisabledOf ctrl.mode inp.cfg.toOption = true →
      st.synced = true ∧ st.syncDisabled = true) ∧
    (∀ (m : Mode) (c : Option MachineConfig),
      syncDisabledOf m c = true ↔ (m = Mode.container ∨ cfgDisabled c = true)) ∧
    (∀ m : Mode, syncDisabledOf m none = decide (m = Mode.container)) := by
  obtain ⟨h1, h2, -, -⟩ := runCycle_wrote_inv ctrl s e inp s' st h
  subst h1
  refine ⟨by rw [← h2]; rfl, ?_, ?_, ?_⟩
  · intro hd
    constructor
    · rw [← h2]
      show (cycleState ctrl (dispatch s e) inp).timeSynced = true
      rw [cycleState_timeSynced, hd]
      simp
    · rw [← h2]
      show syncDisabledOf ctrl.mode inp.cfg.toOption = true
      exact hd
  · intro m c
    cases m <;> cases c <;> simp [syncDisabledOf, cfgDisabled]
  · intro m
    cases m <;> simp [syncDisabledOf, cfgDisabled]

/-- Witness for C8: container mode with a worker somehow running and not
synced still publishes synced=true, syncDisabled=true. -/
theorem sync_disabled_semantics_witness :
    ((⟨1, true, true⟩ : StatusSpec).syncDisabled =
      syncDisabledOf Mode.container (GetResult.notFound : GetResult MachineConfig).toOption) ∧
    (syncDisabledOf Mode.container (GetResult.notFound : GetResult MachineConfig).toOption = true →
      (⟨1, true, true⟩ : StatusSpec).synced = true ∧
      (⟨1, true, true⟩ : StatusSpec).syncDisabled = true) ∧
    (∀ (m : Mode) (c : Option MachineConfig),
      syncDisabledOf m c = true ↔ (m = Mode.container ∨ cfgDisabled c = true)) ∧
    (∀ m : Mode, syncDisabledOf m none = decide (m = Mode.container)) :=
  sync_disabled_semantics ⟨Mode.container, 0⟩ ⟨true, true, true, false, 1, none⟩
    Event.eventCh ⟨3, GetResult.ok [], GetResult.notFound, ⟨0, false, false⟩, true⟩
    ⟨false, false, false, true, 1, none⟩ ⟨1, true, true⟩ (by decide)

/-- C9: when cancellation is the selected arm, the iteration performs no
status write and the loop returns without error (`exitOk`, the nil
return); the deferred teardown cancels and awaits any worker and stops
any armed timer, and the whole run ends right there with no further
writes (`writes = []`, outcome `exited`, never `fatalErr`). -/
theorem cancellation_clean_teardown (ctrl : SyncController) (s : LoopState)
    (inp : CycleInput) (rest : List (Event × CycleInput)) :
    runCycle ctrl s Event.ctxDone inp = CycleResult.exitOk (teardown s) ∧
    (teardown s).syncerRunning = false ∧
    (teardown s).timer = none ∧
    run ctrl s ((Event.ctxDone, inp) :: rest) =
      { final := teardown s, writes := [], outcome := Outcome.exited } := by
  exact ⟨rfl, rfl, rfl, by simp [run, runCycle]⟩

/-- C10: a consumed event survives a cycle skipped for a missing server
list — the skip carries exactly the post-event state (synced flag set and
synced channel dropped on a synced signal, epoch incremented — one
wrapping 64-bit increment — on an epoch signal, synced set and timer
cleared on a timer fire), the run continues
from that state, and the very next completed cycle's written status
reflects it (the epoch increment is published; the synced flag is
published provided the cycle does not freshly start a worker, which a
running worker precludes). -/
theorem events_survive_skipped_cycle (ctrl : SyncController) (s : LoopState)
    (e1 : Event) (inp1 inp2 : CycleInput) (s2 : LoopState) (st : StatusSpec)
    (rest : List (Event × CycleInput))
    (he : e1 ≠ Event.ctxDone)
    (h1 : inp1.timeServers = GetResult.notFound) :
    runCycle ctrl s e1 inp1 = CycleResult.skip (dispatch s e1) ∧
    run ctrl s ((e1, inp1) :: rest) = run ctrl (dispatch s e1) rest ∧
    (e1 = Event.syncedSignal →
      (dispatch s e1).timeSynced = true ∧ (dispatch s e1).syncChOpen = false) ∧
    (e1 = Event.epochSignal → (dispatch s e1).epoch = wrap64 (s.epoch + 1)) ∧
    (e1 = Event.timerFired →
      (dispatch s e1).timeSynced = true ∧ (dispatch s e1).timer = none) ∧
    (runCycle ctrl (dispatch s e1) Event.eventCh inp2 = CycleResult.wrote s2 st →
      (e1 = Event.epochSignal → st.epoch = wrap64 (s.epoch + 1)) ∧
      (e1 = Event.syncedSignal → s.syncerRunning = true → st.synced = true)) := by
  have hskip : runCycle ctrl s e1 inp1 = CycleResult.skip (dispatch s e1) := by
    cases e1 <;> simp_all [runCycle, body]
  refine ⟨hskip, by simp [run, hskip], ?_, ?_, ?_, ?_⟩
  · intro hE; subst hE; exact ⟨rfl, rfl⟩
  · intro hE; subst hE; rfl
  · intro hE; subst hE; exact ⟨rfl, rfl⟩
  · intro h2
    obtain ⟨hA, hB, -, -⟩ := runCycle_wrote_inv _ _ _ _ _ _ h2
    constructor
    · intro hE
      rw [← hB]
      show (cycleState ctrl (dispatch (dispatch s e1) Event.eventCh) inp2).epoch =
        wrap64 (s.epoch + 1)
      rw [cycleState_epoch]
      subst hE
      rfl
    · intro hE hrun
      rw [← hB]
      show (cycleState ctrl (dispatch (dispatch s e1) Event.eventCh) inp2).timeSynced =
        true
      rw [cycleState_timeSynced]
      subst hE
      simp [dispatch, hrun]

/-- Witness for C10: an epoch signal consumed during a not-found cycle
shows up in the next completed cycle's written status. -/
theorem events_survive_skipped_cycle_witness :
    (runCycle ⟨Mode.metal, 0⟩ ⟨true, true, true, true, 0, none⟩ Event.epochSignal
        ⟨5, GetResult.notFound, GetResult.notFound, ⟨0, true, false⟩, true⟩ =
      CycleResult.skip
        (dispatch ⟨true, true, true, true, 0, none⟩ Event.epochSignal)) ∧
    ((⟨1, true, false⟩ : StatusSpec).epoch =
      wrap64 ((⟨true, true, true, true, 0, none⟩ : LoopState).epoch + 1)) :=
  ⟨(events_survive_skipped_cycle ⟨Mode.metal, 0⟩ ⟨true, true, true, true, 0, none⟩
      Event.epochSignal ⟨5, GetResult.notFound, GetResult.notFound, ⟨0, true, false⟩, true⟩
      ⟨6, GetResult.ok [], GetResult.notFound, ⟨0, true, false⟩, true⟩
      ⟨true, true, true, true, 1, none⟩ ⟨1, true, false⟩ [] (by decide) rfl).1,
   ((events_survive_skipped_cycle ⟨Mode.metal, 0⟩ ⟨true, true, true, true, 0, none⟩
      Event.epochSignal ⟨5, GetResult.notFound, GetResult.notFound, ⟨0, true, false⟩, true⟩
      ⟨6, GetResult.ok [], GetResult.notFound, ⟨0, true, false⟩, true⟩
      ⟨true, true, true, true, 1, none⟩ ⟨1, true, false⟩ [] (by decide) rfl).2.2.2.2.2
    (by decide)).1 rfl⟩

end TalosTimeSync
